import Mathlib

/-!
Shallow embedding of `src/app.py` (a streamlit/pandas dashboard over a
labeled fake-news dataset) and proofs about the claims of its spec.

Modelling conventions, chosen to mirror the pandas code faithfully:

* A `Record` is one dataframe row.  `fake_news_label` is the 0/1 column
  (modelled as `Bool`, `true` = 1 = Fake, matching the data model
  "binary: 0=Real, 1=Fake"); `sentiment_label` is one of the three
  category strings, modelled as the enumeration `Sentiment`;
  `tweetcreatedts` is a timestamp, modelled as the day number of its
  date (days since 1970-01-01, as `Int`).  `pd.to_period("W")` only
  depends on the date part of a timestamp, so day granularity loses
  nothing for the weekly pipeline.

* Floating point arithmetic is modelled by exact rational arithmetic
  (`ℚ`).  All spec-level numbers (0.4, 1e-9 tolerances, ...) are exact
  decimals, so the rational model makes the float-tolerance statements
  exact equalities.

* `groupby` with its default `sort=True` is modelled as: take the list
  of keys, remove duplicates, sort ascending, and aggregate the filter
  of the rows for each key.  pandas groups in key order and aggregates
  each group; aggregation here never depends on intra-group order.

* Section 3 of `app.py` groups by the column
  `df["tweetcreatedts"].dt.to_period("W").astype(str)`, whose values
  are strings "YYYY-MM-DD/YYYY-MM-DD" (week start "/" week end, Monday
  to Sunday since pandas weekly periods are W-SUN).  Two timestamps get
  the same string iff they fall in the same week, and for every
  representable pandas timestamp (years 1677..2262, hence 4-digit
  years) lexicographic order of these strings agrees with week-start
  order.  The model therefore keys the group-by on the week-start day
  number and renders the string label afterwards with `periodStr`.

* Section 4 groups by `to_period('W').apply(lambda r: r.start_time)`,
  i.e. directly by the week-start timestamp; the model keys on the same
  week-start day number.
-/

/-- The three sentiment categories of the `sentiment_label` column. -/
inductive Sentiment where
  | Negative : Sentiment
  | Neutral : Sentiment
  | Positive : Sentiment
deriving DecidableEq, Repr

/-- One row of the loaded dataframe. -/
structure Record where
  text : String
  fake_news_label : Bool
  sentiment_label : Sentiment
  tweetcreatedts : Int
deriving DecidableEq, Repr

/-! ### Calendar: week starts and period labels

`dt.to_period("W")` uses pandas' default weekly frequency W-SUN: weeks
run Monday..Sunday.  Day numbers are days since 1970-01-01 (a
Thursday); 1970-01-05 (day 4) is a Monday. -/

/-- Day number of the Monday starting the week that contains day `d`
(pandas weekly period W-SUN, weeks Monday..Sunday). -/
def weekStart (d : Int) : Int :=
  d - (d + 3) % 7

/-- Civil-calendar date (year, month, day) of a day number (days since
1970-01-01, proleptic Gregorian).  Standard days-to-civil conversion. -/
def civilFromDays (z0 : Int) : Int × Nat × Nat :=
  let z : Int := z0 + 719468
  let era : Int := Int.fdiv z 146097
  let doe : Nat := (z - era * 146097).toNat
  let yoe : Nat := (doe - doe / 1460 + doe / 36524 - doe / 146096) / 365
  let doy : Nat := doe - (365 * yoe + yoe / 4 - yoe / 100)
  let mp : Nat := (5 * doy + 2) / 153
  let day : Nat := doy - (153 * mp + 2) / 5 + 1
  let m : Nat := if mp < 10 then mp + 3 else mp - 9
  let y : Int := (era * 400 + yoe) + (if m ≤ 2 then 1 else 0)
  (y, m, day)

/-- Zero-pad the decimal representation of `n` to at least `k` digits. -/
def padNum (k : Nat) (n : Nat) : String :=
  let s := toString n
  String.mk (List.replicate (k - s.length) '0') ++ s

/-- Render a day number as the date string "YYYY-MM-DD" (as pandas
renders the dates inside a period string). -/
def dateStr (d : Int) : String :=
  let c := civilFromDays d
  let y : String := if c.1 < 0 then "-" ++ padNum 4 c.1.natAbs else padNum 4 c.1.toNat
  y ++ "-" ++ padNum 2 c.2.1 ++ "-" ++ padNum 2 c.2.2

/-- Rendering `astype(str)` of a weekly pandas period whose start day is `w`:
the string "start/end" with the end six days after the start. -/
def periodStr (w : Int) : String :=
  dateStr w ++ "/" ++ dateStr (w + 6)

/-! ### Section 3: weekly aggregation (`weekly = df.groupby("week").agg(...)`) -/

/-- Week (start day number) of a record, per
`df["tweetcreatedts"].dt.to_period("W")`. -/
def recordWeek (r : Record) : Int :=
  weekStart r.tweetcreatedts

/-- The distinct week keys present in the data, ascending — the group
keys of `groupby("week")` (pandas sorts group keys). -/
def weeks (rs : List Record) : List Int :=
  List.insertionSort (· ≤ ·) ((rs.map recordWeek).dedup)

/-- The rows falling in week `w` — one group of `groupby("week")`. -/
def groupOf (rs : List Record) (w : Int) : List Record :=
  rs.filter (fun r => recordWeek r = w)

/-- Mean of a list of rationals (`Series.mean`); `[]` never occurs in
the groupby uses below (groups are nonempty). -/
def listMean (l : List ℚ) : ℚ :=
  l.sum / l.length

/-- One row of the `weekly` dataframe of section 3. -/
@[ext]
structure WeeklyRow where
  week : String
  fake_news_rate : ℚ
  pos : ℚ
  neg : ℚ
  neu : ℚ
deriving DecidableEq, Repr

/-- Aggregation `(x == s).mean()` for the sentiment column of a group: the mean of
the boolean indicator series. -/
def sentMean (g : List Record) (s : Sentiment) : ℚ :=
  listMean (g.map (fun r => if r.sentiment_label = s then (1 : ℚ) else 0))

/-- The `weekly` dataframe of section 3:
`df.groupby("week").agg(fake_news_rate=("fake_news_label","mean"),
pos=..., neg=..., neu=...).reset_index()`. -/
def weekly (rs : List Record) : List WeeklyRow :=
  (weeks rs).map (fun w =>
    let g := groupOf rs w
    { week := periodStr w
      fake_news_rate := listMean (g.map (fun r => if r.fake_news_label then (1 : ℚ) else 0))
      pos := sentMean g .Positive
      neg := sentMean g .Negative
      neu := sentMean g .Neutral })

/-! ### Section 3: rolling mean (the Smoother)

`weekly[["fake_news_rate","pos","neg","neu"]].rolling(4, min_periods=1).mean()`
followed by `pd.concat([weekly["week"], rolling_numeric], axis=1)`. -/

/-- The window size `rolling_window = 4` of section 3. -/
def rolling_window : Nat := 4

/-- Value at position `i` of `Series.rolling(w, min_periods=1).mean()`:
the mean of the entries at positions `max 0 (i+1-w) .. i`. -/
def rollingMeanAt (w : Nat) (l : List ℚ) (i : Nat) : ℚ :=
  listMean ((l.take (i + 1)).drop (i + 1 - w))

/-- Applying `Series.rolling(w, min_periods=1).mean()` to a whole column. -/
def rollingMean (w : Nat) (l : List ℚ) : List ℚ :=
  (List.range l.length).map (rollingMeanAt w l)

/-- Table `weekly_rolled`: the week labels of `weekly` recombined with the
four rolled numeric columns (`pd.concat` along columns). -/
def weekly_rolled (w : Nat) (rows : List WeeklyRow) : List WeeklyRow :=
  (List.range rows.length).map (fun i =>
    { week := (rows.map WeeklyRow.week).getD i ""
      fake_news_rate := rollingMeanAt w (rows.map WeeklyRow.fake_news_rate) i
      pos := rollingMeanAt w (rows.map WeeklyRow.pos) i
      neg := rollingMeanAt w (rows.map WeeklyRow.neg) i
      neu := rollingMeanAt w (rows.map WeeklyRow.neu) i })

/-! ### Section 4: weekly stacked sentiment proportions -/

/-- Aggregation `Series.value_counts(normalize=True)` on the sentiment column of a
group: each distinct value paired with its relative frequency.
(pandas orders by descending count; the order is irrelevant here
because the result is only read back through keyed lookup after
`unstack`, so we keep dedup order.) -/
def value_counts_norm (g : List Record) : List (Sentiment × ℚ) :=
  ((g.map Record.sentiment_label).dedup).map
    (fun s => (s, ((g.filter (fun r => r.sentiment_label = s)).length : ℚ) / g.length))

/-- Column lookup after `unstack().fillna(0)` (and after the loop that
inserts any wholly absent sentiment column as 0): a missing key is 0. -/
def lookupD : List (Sentiment × ℚ) → Sentiment → ℚ
  | [], _ => 0
  | (k, v) :: rest, s => if k = s then v else lookupD rest s

/-- One row of the `weekly_stacked` dataframe of section 4: the week is
keyed by `to_period('W').apply(lambda r: r.start_time)`, i.e. the
week-start day, and the columns are ordered `sent_order =
[Negative, Neutral, Positive]`. -/
@[ext]
structure StackedRow where
  week : Int
  Negative : ℚ
  Neutral : ℚ
  Positive : ℚ
deriving DecidableEq, Repr

/-- The `weekly_stacked` dataframe of section 4:
`df.groupby('week')['sentiment_label'].value_counts(normalize=True)
.unstack().fillna(0)` reindexed to `sent_order`. -/
def weekly_stacked (rs : List Record) : List StackedRow :=
  (weeks rs).map (fun w =>
    let vc := value_counts_norm (groupOf rs w)
    { week := w
      Negative := lookupD vc .Negative
      Neutral := lookupD vc .Neutral
      Positive := lookupD vc .Positive })

/-! ### Section 5: crosstab -/

/-- One cell of `pd.crosstab(df['fake_news_label'], df['sentiment_label'])`:
the number of records with the given label and sentiment. -/
def cellCount (rs : List Record) (b : Bool) (s : Sentiment) : Nat :=
  (rs.filter (fun r => r.fake_news_label = b ∧ r.sentiment_label = s)).length

/-- Table `conf_matrix` of section 5.  `pd.crosstab` keeps one row per label
value actually present (sorted ascending, so `[0, 1]` when both occur);
the assignment `conf_matrix.index = ['Real', 'Fake']` raises a length
mismatch unless exactly two label values are present, which we model as
`none`.  When it succeeds, the subsequent
`reindex(columns=sent_order, fill_value=0)` yields the 2×3 table of
counts in the fixed order (Real, Fake) × (Negative, Neutral, Positive),
absent sentiment columns filled with 0 (`cellCount` is 0 there). -/
def conf_matrix (rs : List Record) : Option (List (List Nat)) :=
  if ((rs.map Record.fake_news_label).dedup).length = 2 then
    some [[cellCount rs false .Negative, cellCount rs false .Neutral, cellCount rs false .Positive],
          [cellCount rs true .Negative, cellCount rs true .Neutral, cellCount rs true .Positive]]
  else none

/-! ### Sections 2, 6, 7: counts, glyph counts, row inspector -/

/-- Counts `df['fake_news_label'].value_counts().reindex([0, 1], fill_value=0)`
as the list `[count of 0, count of 1]`. -/
def label_counts (rs : List Record) : List Nat :=
  [(rs.filter (fun r => r.fake_news_label = false)).length,
   (rs.filter (fun r => r.fake_news_label = true)).length]

/-- Counts `df['sentiment_label'].value_counts().reindex(sent_order, fill_value=0)`
as the list `[count Negative, count Neutral, count Positive]`; section 6
(`sent_counts.get(sent, 0)` for `sent` in `sent_order`) reads the same
three numbers. -/
def sent_counts (rs : List Record) : List Nat :=
  [(rs.filter (fun r => r.sentiment_label = .Negative)).length,
   (rs.filter (fun r => r.sentiment_label = .Neutral)).length,
   (rs.filter (fun r => r.sentiment_label = .Positive)).length]

/-- The value returned by `st.slider("Pick a row (index):", 0, len(df)-1, 0)`
when the user drives it toward `u`: a slider widget only yields values
inside its `[min, max]` range, i.e. it clamps. -/
def row_num (rs : List Record) (u : Int) : Int :=
  max 0 (min ((rs.length : Int) - 1) u)

/-- Lookup `df.iloc[row_num]` (section 7): fetch the row at the slider's
position. -/
def selectRow (rs : List Record) (u : Int) : Option Record :=
  rs[(row_num rs u).toNat]?

/-! ### The whole dashboard render pass -/

/-- The raw loaded table: its rows plus whether the optional
`tweetcreatedts` column is present (`'tweetcreatedts' in df.columns`).
When the column is absent the `tweetcreatedts` fields of the rows are
never read (both week-based sections are guarded by the column check),
so carrying a dummy day number is harmless. -/
structure RawData where
  rows : List Record
  hasTs : Bool
deriving DecidableEq, Repr

/-- All views computed by one top-to-bottom run of `app.py`.  The two
week-based views (sections 3 and 4) are `none` when skipped by the
`if 'tweetcreatedts' in df.columns` guards. -/
structure Dashboard where
  preview : List Record × Nat
  labelChart : List Nat
  sentChart : List Nat
  rollingView : Option (List WeeklyRow)
  stackedView : Option (List StackedRow)
  conf : Option (List (List Nat))
  glyphs : List Nat
  inspect : Int → Option Record

/-- One render pass of `app.py`, section by section. -/
def render (d : RawData) : Dashboard :=
  { preview := (d.rows.take 20, d.rows.length)
    labelChart := label_counts d.rows
    sentChart := sent_counts d.rows
    rollingView := if d.hasTs then some (weekly_rolled rolling_window (weekly d.rows)) else none
    stackedView := if d.hasTs then some (weekly_stacked d.rows) else none
    conf := conf_matrix d.rows
    glyphs := sent_counts d.rows
    inspect := fun u => selectRow d.rows u }

/-! ### Concrete datasets for the spec's scenarios -/

/-- The spec's concrete Aggregator scenario: 5 records in the week of
2021-01-04 (day numbers 18631..18635 are Mon..Fri of that week) with
labels `[1,0,1,0,0]` and sentiments `[Pos,Neg,Pos,Neu,Neg]`. -/
def dsWeekScenario : List Record :=
  [⟨"t1", true, .Positive, 18631⟩,
   ⟨"t2", false, .Negative, 18632⟩,
   ⟨"t3", true, .Positive, 18633⟩,
   ⟨"t4", false, .Neutral, 18634⟩,
   ⟨"t5", false, .Negative, 18635⟩]

/-- A one-record dataset (label 0, no Fake record at all), timestamped
2021-01-04. -/
def dsSingle : List Record :=
  [⟨"t1", false, .Neutral, 18631⟩]

/-- A two-record dataset with both label values, used to instantiate
theorems about the crosstab. -/
def dsBoth : List Record :=
  [⟨"t1", false, .Neutral, 18631⟩, ⟨"t2", true, .Positive, 18632⟩]

/-- The spec's concrete Smoother scenario input. -/
def smootherInput : List ℚ := [0.2, 0.4, 0.6, 0.8, 1.0]

/-! ### Helper lemmas -/

theorem sum_map_ite_one {α : Type} (p : α → Prop) [DecidablePred p] (l : List α) :
    (l.map (fun a => if p a then (1 : ℚ) else 0)).sum =
      ((l.filter (fun a => p a)).length : ℚ) := by
  induction l with
  | nil => simp
  | cons a t ih =>
    by_cases h : p a
    · simp [List.filter_cons, h, ih]
      ring
    · simp [List.filter_cons, h, ih]

theorem listMean_map_ite {α : Type} (p : α → Prop) [DecidablePred p] (l : List α) :
    listMean (l.map (fun a => if p a then (1 : ℚ) else 0)) =
      ((l.filter (fun a => p a)).length : ℚ) / (l.length : ℚ) := by
  simp [listMean, sum_map_ite_one]

theorem listMean_singleton (x : ℚ) : listMean [x] = x := by
  simp [listMean]

theorem mem_weeks_iff {rs : List Record} {w : Int} :
    w ∈ weeks rs ↔ ∃ r ∈ rs, recordWeek r = w := by
  rw [weeks, List.mem_insertionSort, List.mem_dedup, List.mem_map]

theorem length_groupOf_pos {rs : List Record} {w : Int} (h : w ∈ weeks rs) :
    0 < (groupOf rs w).length := by
  obtain ⟨r, hr, hw⟩ := mem_weeks_iff.1 h
  have hmem : r ∈ groupOf rs w := List.mem_filter.2 ⟨hr, by simp [hw]⟩
  exact List.length_pos.2 (List.ne_nil_of_mem hmem)

theorem length_filter_sent (g : List Record) :
    (g.filter (fun r => r.sentiment_label = Sentiment.Positive)).length +
      (g.filter (fun r => r.sentiment_label = Sentiment.Negative)).length +
      (g.filter (fun r => r.sentiment_label = Sentiment.Neutral)).length = g.length := by
  induction g with
  | nil => rfl
  | cons a t ih =>
    cases h : a.sentiment_label <;> simp [List.filter_cons, h] <;> omega

theorem weeks_sorted (rs : List Record) : List.Sorted (· < ·) (weeks rs) := by
  have h1 : List.Sorted (· ≤ ·) (weeks rs) := List.sorted_insertionSort _ _
  have h2 : (weeks rs).Nodup :=
    ((List.perm_insertionSort _ _).nodup_iff).2 (List.nodup_dedup _)
  exact List.Pairwise.imp (fun h => lt_of_le_of_ne h.1 h.2) (h1.and h2)

theorem rollingMean_getD (w : Nat) (l : List ℚ) (i : Nat) (h : i < l.length) :
    (rollingMean w l).getD i 0 = rollingMeanAt w l i := by
  have hi : i < ((List.range l.length).map (rollingMeanAt w l)).length := by simp [h]
  rw [rollingMean, List.getD_eq_getElem?_getD, List.getElem?_eq_getElem hi]
  simp

theorem drop_take_eq_range_map (l : List ℚ) (w i : Nat) (h : i < l.length) :
    (l.take (i + 1)).drop (i + 1 - w) =
      (List.range' (i + 1 - w) (min (i + 1) w)).map (fun j => l.getD j 0) := by
  apply List.ext_getElem
  · simp
    omega
  · intro n h1 h2
    have hb : i + 1 - w + n < l.length := by
      simp at h1
      omega
    simp [List.getD_eq_getElem?_getD, List.getElem?_eq_getElem hb]

theorem rollingMeanAt_head {w : Nat} (hw : 0 < w) (x : ℚ) (t : List ℚ) :
    rollingMeanAt w (x :: t) 0 = x := by
  have h1 : 0 + 1 - w = 0 := by omega
  simp [rollingMeanAt, h1, listMean_singleton]

theorem rollingMeanAt_one (l : List ℚ) (i : Nat) (h : i < l.length) :
    rollingMeanAt 1 l i = l[i] := by
  have h2 : List.take 1 (List.drop i l) = [l[i]] := by
    rw [List.drop_eq_getElem_cons (by simpa using h)]
    rfl
  rw [rollingMeanAt, show i + 1 - 1 = i from rfl, List.drop_take,
    show i + 1 - i = 1 by omega, h2, listMean_singleton]

theorem cell_partition (rs : List Record) :
    cellCount rs false .Negative + cellCount rs false .Neutral + cellCount rs false .Positive +
      cellCount rs true .Negative + cellCount rs true .Neutral + cellCount rs true .Positive =
      rs.length := by
  induction rs with
  | nil => rfl
  | cons a t ih =>
    cases hb : a.fake_news_label <;> cases hs : a.sentiment_label <;>
      simp [cellCount, List.filter_cons, hb, hs] at * <;> omega

theorem dedup_labels_length {rs : List Record}
    (h0 : ∃ r ∈ rs, r.fake_news_label = false) (h1 : ∃ r ∈ rs, r.fake_news_label = true) :
    ((rs.map Record.fake_news_label).dedup).length = 2 := by
  have hnd : ((rs.map Record.fake_news_label).dedup).Nodup := List.nodup_dedup _
  obtain ⟨r0, hr0, hb0⟩ := h0
  obtain ⟨r1, hr1, hb1⟩ := h1
  have hf : false ∈ (rs.map Record.fake_news_label).dedup :=
    List.mem_dedup.2 (List.mem_map.2 ⟨r0, hr0, hb0⟩)
  have ht : true ∈ (rs.map Record.fake_news_label).dedup :=
    List.mem_dedup.2 (List.mem_map.2 ⟨r1, hr1, hb1⟩)
  have hle : ((rs.map Record.fake_news_label).dedup).length ≤ 2 := by
    simpa using hnd.length_le_card
  have hge : 2 ≤ ((rs.map Record.fake_news_label).dedup).length := by
    have hsub : ({false, true} : Finset Bool) ⊆ ((rs.map Record.fake_news_label).dedup).toFinset := by
      intro b hb
      cases b
      · exact List.mem_toFinset.2 hf
      · exact List.mem_toFinset.2 ht
    calc 2 = ({false, true} : Finset Bool).card := rfl
      _ ≤ ((rs.map Record.fake_news_label).dedup).toFinset.card := Finset.card_le_card hsub
      _ = ((rs.map Record.fake_news_label).dedup).length := List.toFinset_card_of_nodup hnd
  omega

theorem lookupD_map_self (ks : List Sentiment) (q : Sentiment → ℚ) (s : Sentiment) :
    lookupD (ks.map (fun k => (k, q k))) s = if s ∈ ks then q s else 0 := by
  induction ks with
  | nil => rfl
  | cons k t ih =>
    by_cases h : k = s
    · subst h
      simp [lookupD]
    · simp [lookupD, h, ih, Ne.symm h]

theorem lookupD_value_counts (g : List Record) (s : Sentiment) :
    lookupD (value_counts_norm g) s =
      ((g.filter (fun r => r.sentiment_label = s)).length : ℚ) / (g.length : ℚ) := by
  rw [value_counts_norm, lookupD_map_self]
  by_cases h : s ∈ (g.map Record.sentiment_label).dedup
  · simp [h]
  · have hfil : g.filter (fun r => r.sentiment_label = s) = [] := by
      rw [List.filter_eq_nil_iff]
      intro r hr hs
      exact h (List.mem_dedup.2 (List.mem_map.2 ⟨r, hr, by simpa using hs⟩))
    simp [h, hfil]

/-! ### Claim theorems -/

/-- Claim C1: for every Dataset and every calendar week present in it,
the Aggregator row of that week has `fake_news_rate` equal to the count
of label-1 records over the record count of the week and `pos`/`neg`/
`neu` equal to the proportion of each sentiment; in particular the
spec's 5-record scenario for week 2021-01-04 yields
`fake_news_rate = 0.4, pos = 0.4, neg = 0.4, neu = 0.2`. -/
theorem C1_weekly_aggregation :
    (∀ (rs : List Record) (w : Int), w ∈ weeks rs →
      ({ week := periodStr w
         fake_news_rate := (((groupOf rs w).filter (fun r => r.fake_news_label = true)).length : ℚ) /
           ((groupOf rs w).length : ℚ)
         pos := (((groupOf rs w).filter (fun r => r.sentiment_label = .Positive)).length : ℚ) /
           ((groupOf rs w).length : ℚ)
         neg := (((groupOf rs w).filter (fun r => r.sentiment_label = .Negative)).length : ℚ) /
           ((groupOf rs w).length : ℚ)
         neu := (((groupOf rs w).filter (fun r => r.sentiment_label = .Neutral)).length : ℚ) /
           ((groupOf rs w).length : ℚ) } : WeeklyRow) ∈ weekly rs)
    ∧ weekly dsWeekScenario =
        [{ week := "2021-01-04/2021-01-10", fake_news_rate := 0.4, pos := 0.4,
           neg := 0.4, neu := 0.2 }] := by
  constructor
  · intro rs w hw
    simp only [weekly]
    refine List.mem_map.2 ⟨w, hw, ?_⟩
    simp only [sentMean]
    rw [listMean_map_ite, listMean_map_ite, listMean_map_ite, listMean_map_ite]
  · simp [weekly, weeks, dsWeekScenario, groupOf, recordWeek, weekStart, sentMean, listMean]
    norm_num
    decide

/-- Witness for C1 at the concrete scenario dataset. -/
theorem C1_witness :
    ({ week := periodStr 18631
       fake_news_rate := (((groupOf dsWeekScenario 18631).filter
           (fun r => r.fake_news_label = true)).length : ℚ) /
         ((groupOf dsWeekScenario 18631).length : ℚ)
       pos := (((groupOf dsWeekScenario 18631).filter
           (fun r => r.sentiment_label = .Positive)).length : ℚ) /
         ((groupOf dsWeekScenario 18631).length : ℚ)
       neg := (((groupOf dsWeekScenario 18631).filter
           (fun r => r.sentiment_label = .Negative)).length : ℚ) /
         ((groupOf dsWeekScenario 18631).length : ℚ)
       neu := (((groupOf dsWeekScenario 18631).filter
           (fun r => r.sentiment_label = .Neutral)).length : ℚ) /
         ((groupOf dsWeekScenario 18631).length : ℚ) } : WeeklyRow) ∈ weekly dsWeekScenario :=
  C1_weekly_aggregation.1 dsWeekScenario 18631 (by decide)

/-- Claim C2: the Smoother with window 4 replaces position `i` of a
numeric series by the arithmetic mean of the entries at positions
`max 0 (i-3) .. i` (expanding window until 4 rows of history exist,
then a trailing window of 4, never looking ahead); in particular
`[0.2, 0.4, 0.6, 0.8, 1.0]` smooths to `[0.2, 0.3, 0.4, 0.5, 0.7]`. -/
theorem C2_smoother_trailing_mean :
    (∀ (l : List ℚ) (i : Nat), i < l.length →
      (rollingMean 4 l).getD i 0 =
        (((List.range' (i + 1 - 4) (min (i + 1) 4)).map (fun j => l.getD j 0)).sum) /
          ((min (i + 1) 4 : Nat) : ℚ))
    ∧ rollingMean 4 smootherInput = [0.2, 0.3, 0.4, 0.5, 0.7] := by
  constructor
  · intro l i h
    rw [rollingMean_getD _ _ _ h, rollingMeanAt, drop_take_eq_range_map _ 4 _ h, listMean]
    simp
  · simp [rollingMean, rollingMeanAt, smootherInput, listMean, List.range_succ]
    norm_num

/-- Witness for C2 at position 4 of the concrete series. -/
theorem C2_witness :
    (rollingMean 4 smootherInput).getD 4 0 =
      (((List.range' (4 + 1 - 4) (min (4 + 1) 4)).map
        (fun j => smootherInput.getD j 0)).sum) / ((min (4 + 1) 4 : Nat) : ℚ) :=
  C2_smoother_trailing_mean.1 smootherInput 4 (by decide)

/-- Claim C3: in every Aggregator row the three sentiment proportions
sum to exactly 1 (hence within any floating-point tolerance), and the
Aggregator produces exactly one row per distinct week present in the
Dataset. -/
theorem C3_sentiment_sum_one_row_per_week :
    (∀ (rs : List Record) (row : WeeklyRow), row ∈ weekly rs →
      row.pos + row.neg + row.neu = 1)
    ∧ (∀ rs : List Record,
        (weekly rs).length = ((rs.map recordWeek).dedup).length ∧ (weeks rs).Nodup) := by
  constructor
  · intro rs row hrow
    simp only [weekly] at hrow
    obtain ⟨w, hw, hfw⟩ := List.mem_map.1 hrow
    subst hfw
    simp only [sentMean]
    rw [listMean_map_ite, listMean_map_ite, listMean_map_ite]
    have hn : 0 < (groupOf rs w).length := length_groupOf_pos hw
    have hne : ((groupOf rs w).length : ℚ) ≠ 0 := by
      exact_mod_cast hn.ne'
    have hsum := length_filter_sent (groupOf rs w)
    rw [div_add_div_same, div_add_div_same, ← Nat.cast_add, ← Nat.cast_add, hsum]
    exact div_self hne
  · intro rs
    refine ⟨?_, ((List.perm_insertionSort _ _).nodup_iff).2 (List.nodup_dedup _)⟩
    rw [weekly, List.length_map, weeks, List.length_insertionSort]

/-- Witness for C3 at the concrete scenario dataset. -/
theorem C3_witness :
    (0.4 : ℚ) + 0.4 + 0.2 = 1 ∧ (weekly dsWeekScenario).length = 1 := by
  constructor
  · have h1 : (⟨"2021-01-04/2021-01-10", 0.4, 0.4, 0.4, 0.2⟩ : WeeklyRow) ∈
        weekly dsWeekScenario := by
      rw [C1_weekly_aggregation.2]
      exact List.mem_singleton.2 rfl
    exact C3_sentiment_sum_one_row_per_week.1 dsWeekScenario _ h1
  · exact ((C3_sentiment_sum_one_row_per_week.2 dsWeekScenario).1).trans (by decide)

/-- Claim C4: the Smoother preserves the number of rows, is the
identity on inputs with at most one row and for window 1, and its
row 0 always equals input row 0. -/
theorem C4_smoother_shape :
    (∀ (w : Nat) (rows : List WeeklyRow), (weekly_rolled w rows).length = rows.length)
    ∧ (∀ rows : List WeeklyRow, rows.length ≤ 1 → weekly_rolled rolling_window rows = rows)
    ∧ (∀ rows : List WeeklyRow, weekly_rolled 1 rows = rows)
    ∧ (∀ rows : List WeeklyRow, (weekly_rolled rolling_window rows)[0]? = rows[0]?) := by
  have hhead : ∀ (w : Nat), 0 < w → ∀ (r : WeeklyRow) (t : List WeeklyRow),
      (weekly_rolled w (r :: t))[0]? = some r := by
    intro w hw r t
    have h1 : 0 < (weekly_rolled w (r :: t)).length := by
      simp [weekly_rolled]
    rw [List.getElem?_eq_getElem h1]
    simp only [weekly_rolled, List.getElem_map, List.getElem_range, List.map_cons]
    congr 1
    apply WeeklyRow.ext <;>
      simp [rollingMeanAt_head hw, List.getD_cons_zero]
  refine ⟨fun w rows => by simp [weekly_rolled], ?_, ?_, ?_⟩
  · intro rows h
    cases rows with
    | nil => rfl
    | cons r t =>
      cases t with
      | cons a b => simp at h
      | nil =>
        have h0 := hhead rolling_window (by norm_num [rolling_window]) r []
        have h1 : (weekly_rolled rolling_window [r]).length = 1 := by
          simp [weekly_rolled]
        cases h2 : weekly_rolled rolling_window [r] with
        | nil => rw [h2] at h1; simp at h1
        | cons x xs =>
          rw [h2] at h0 h1
          simp at h0 h1
          rw [h0, h1]
  · intro rows
    apply List.ext_getElem
    · simp [weekly_rolled]
    · intro n h1 h2
      simp only [weekly_rolled, List.getElem_map, List.getElem_range]
      have hn : n < rows.length := h2
      apply WeeklyRow.ext
      · rw [List.getD_eq_getElem?_getD, List.getElem?_eq_getElem (by simpa using hn)]
        simp
      · rw [rollingMeanAt_one (rows.map WeeklyRow.fake_news_rate) n (by simpa using hn)]
        simp
      · rw [rollingMeanAt_one (rows.map WeeklyRow.pos) n (by simpa using hn)]
        simp
      · rw [rollingMeanAt_one (rows.map WeeklyRow.neg) n (by simpa using hn)]
        simp
      · rw [rollingMeanAt_one (rows.map WeeklyRow.neu) n (by simpa using hn)]
        simp
  · intro rows
    cases rows with
    | nil => rfl
    | cons r t =>
      rw [hhead rolling_window (by norm_num [rolling_window]) r t]
      simp

/-- Witness for C4: identity on a one-row input and head preservation
at a concrete input. -/
theorem C4_witness :
    weekly_rolled rolling_window [(⟨"w", 0.4, 0.4, 0.4, 0.2⟩ : WeeklyRow)] =
      [(⟨"w", 0.4, 0.4, 0.4, 0.2⟩ : WeeklyRow)] :=
  C4_smoother_shape.2.1 [(⟨"w", 0.4, 0.4, 0.4, 0.2⟩ : WeeklyRow)] (by decide)

/-- Claim C5 as stated is false: the rolling view (section 3) labels a
week by the whole period string "start/end", not by the week's start
date.  Concretely, for the single record of 2021-01-04 the aggregated
week label is "2021-01-04/2021-01-10", which differs from the start
date string "2021-01-04". -/
theorem C5_counterexample :
    (weekly dsSingle).map WeeklyRow.week = ["2021-01-04/2021-01-10"]
    ∧ dateStr (weekStart 18631) = "2021-01-04"
    ∧ ("2021-01-04/2021-01-10" : String) ≠ "2021-01-04" := by
  refine ⟨?_, by decide, by decide⟩
  rw [weekly, List.map_map]
  decide

/-- Claim C5, amended: both weekly views are sorted strictly ascending
by week start and label weeks deterministically from the timestamp's
week; the stacked view (section 4) labels each week by its start date,
while the rolling view (section 3) labels it by the full week period
rendered as "start/end". -/
theorem C5_sorted_weeks_and_labels :
    (∀ rs : List Record, List.Sorted (· < ·) (weeks rs))
    ∧ (∀ rs : List Record, (weekly rs).map WeeklyRow.week = (weeks rs).map periodStr)
    ∧ (∀ rs : List Record, (weekly_stacked rs).map StackedRow.week = weeks rs) := by
  refine ⟨weeks_sorted, fun rs => ?_, fun rs => ?_⟩
  · rw [weekly, List.map_map]
    rfl
  · rw [weekly_stacked, List.map_map]
    exact List.map_id _

/-- Witness for C5 at the concrete scenario dataset. -/
theorem C5_witness :
    List.Sorted (· < ·) (weeks dsWeekScenario) ∧ weeks dsWeekScenario = [18631] :=
  ⟨C5_sorted_weeks_and_labels.1 dsWeekScenario, by decide⟩

/-- Claim C6 as stated is false: when one of the two label values is
entirely absent from the Dataset, `pd.crosstab` produces a one-row
table and the index assignment `conf_matrix.index = ['Real', 'Fake']`
raises a length mismatch instead of filling the missing label row with
zeros.  Concretely, the one-record dataset `dsSingle` (label 0 only)
makes the crosstab construction fail. -/
theorem C6_counterexample : conf_matrix dsSingle = none := by decide

/-- Claim C6, amended: for every Dataset in which both label values 0
and 1 occur, the cross-tabulation is the 2×3 count table of label
(Real, Fake) by sentiment (Negative, Neutral, Positive) in that fixed
order, with absent label/sentiment combinations filled with 0; when a
label value is absent the construction fails instead. -/
theorem C6_crosstab_shape (rs : List Record)
    (h0 : ∃ r ∈ rs, r.fake_news_label = false) (h1 : ∃ r ∈ rs, r.fake_news_label = true) :
    conf_matrix rs =
      some [[cellCount rs false .Negative, cellCount rs false .Neutral, cellCount rs false .Positive],
            [cellCount rs true .Negative, cellCount rs true .Neutral, cellCount rs true .Positive]] := by
  rw [conf_matrix, if_pos (dedup_labels_length h0 h1)]

/-- Witness for C6 at a concrete two-record dataset with both labels. -/
theorem C6_witness : conf_matrix dsBoth = some [[0, 1, 0], [0, 0, 1]] := by
  rw [C6_crosstab_shape dsBoth (by decide) (by decide)]
  decide

/-- Claim C7: whenever the crosstab table exists, the sum of its 6
cells equals the number of records in the Dataset. -/
theorem C7_crosstab_total (rs : List Record) (t : List (List Nat))
    (h : conf_matrix rs = some t) : (t.map List.sum).sum = rs.length := by
  rw [conf_matrix] at h
  split_ifs at h with hc
  have ht := Option.some.inj h
  subst ht
  simp only [List.map_cons, List.map_nil, List.sum_cons, List.sum_nil]
  have hp := cell_partition rs
  omega

/-- Witness for C7 at a concrete two-record dataset. -/
theorem C7_witness : (([[0, 1, 0], [0, 0, 1]] : List (List Nat)).map List.sum).sum = dsBoth.length := by
  apply C7_crosstab_total dsBoth
  decide

/-- Claim C8: for a non-empty Dataset, the slider-driven row index is
clamped to `[0, len-1]`, indices 0 and `len-1` return the corresponding
records, and every user input yields a valid record (no out-of-bounds
read). -/
theorem C8_row_selection (rs : List Record) (hne : rs ≠ []) :
    (∀ u : Int, 0 ≤ row_num rs u ∧ row_num rs u ≤ (rs.length : Int) - 1
      ∧ (selectRow rs u).isSome = true)
    ∧ selectRow rs 0 = rs[0]?
    ∧ selectRow rs ((rs.length : Int) - 1) = rs[rs.length - 1]? := by
  have hn : 0 < rs.length := List.length_pos.2 hne
  have hn1 : (1 : Int) ≤ (rs.length : Int) := by exact_mod_cast hn
  refine ⟨fun u => ?_, ?_, ?_⟩
  · have h0 : 0 ≤ row_num rs u := le_max_left _ _
    have hle : row_num rs u ≤ (rs.length : Int) - 1 :=
      max_le (by omega) (min_le_left _ _)
    refine ⟨h0, hle, ?_⟩
    have hlt : (row_num rs u).toNat < rs.length := by omega
    rw [selectRow, List.getElem?_eq_getElem hlt]
    rfl
  · have hr : row_num rs 0 = 0 := by
      rw [row_num, min_eq_right (by omega : (0 : Int) ≤ (rs.length : Int) - 1), max_self]
    rw [selectRow, hr]
    rfl
  · have hr : row_num rs ((rs.length : Int) - 1) = (rs.length : Int) - 1 := by
      rw [row_num, min_self, max_eq_right (by omega : (0 : Int) ≤ (rs.length : Int) - 1)]
    have ht : ((rs.length : Int) - 1).toNat = rs.length - 1 := by omega
    rw [selectRow, hr, ht]

/-- Witness for C8 at a concrete two-record dataset. -/
theorem C8_witness :
    selectRow dsBoth 0 = dsBoth[0]?
    ∧ selectRow dsBoth ((dsBoth.length : Int) - 1) = dsBoth[dsBoth.length - 1]? :=
  ⟨(C8_row_selection dsBoth (by decide)).2.1, (C8_row_selection dsBoth (by decide)).2.2⟩

/-- Claim C9: when the `tweetcreatedts` column is absent, a render pass
still completes: both week-based views are skipped (`none`) while the
label/sentiment distribution charts, the crosstab, the sentiment glyph
counts and the row inspector are computed from the records exactly as
usual. -/
theorem C9_missing_timestamp_column (d : RawData) (h : d.hasTs = false) :
    (render d).rollingView = none
    ∧ (render d).stackedView = none
    ∧ (render d).labelChart = label_counts d.rows
    ∧ (render d).sentChart = sent_counts d.rows
    ∧ (render d).conf = conf_matrix d.rows
    ∧ (render d).glyphs = sent_counts d.rows
    ∧ ∀ u : Int, (render d).inspect u = selectRow d.rows u := by
  refine ⟨?_, ?_, rfl, rfl, rfl, rfl, fun u => rfl⟩ <;> simp [render, h]

/-- Witness for C9 at a concrete dataset without the timestamp column. -/
theorem C9_witness :
    (render ⟨dsBoth, false⟩).rollingView = none
    ∧ (render ⟨dsBoth, false⟩).stackedView = none
    ∧ (render ⟨dsBoth, false⟩).conf = conf_matrix dsBoth :=
  ⟨(C9_missing_timestamp_column ⟨dsBoth, false⟩ rfl).1,
   (C9_missing_timestamp_column ⟨dsBoth, false⟩ rfl).2.1,
   (C9_missing_timestamp_column ⟨dsBoth, false⟩ rfl).2.2.2.2.1⟩

/-- Claim C10: the per-week sentiment proportions computed by the
rolling-average pipeline (section 3, means of equality indicators) and
by the stacked-bar pipeline (section 4, normalized value counts) agree
for corresponding weeks, even though the two pipelines label weeks
differently (period string vs. week-start date). -/
theorem C10_pipelines_agree (rs : List Record) :
    ((weekly rs).map (fun row => (row.pos, row.neg, row.neu)) =
      (weekly_stacked rs).map (fun row => (row.Positive, row.Negative, row.Neutral)))
    ∧ (weekly rs).map WeeklyRow.week = (weekly_stacked rs).map (fun row => periodStr row.week) := by
  constructor
  · rw [weekly, weekly_stacked, List.map_map, List.map_map]
    apply List.map_congr_left
    intro w _
    simp only [Function.comp_apply, sentMean]
    rw [listMean_map_ite, listMean_map_ite, listMean_map_ite,
      lookupD_value_counts, lookupD_value_counts, lookupD_value_counts]
  · rw [weekly, weekly_stacked, List.map_map, List.map_map]
    rfl

/-- Witness for C10 at the concrete scenario dataset. -/
theorem C10_witness :
    (weekly dsWeekScenario).map (fun row => (row.pos, row.neg, row.neu)) =
      (weekly_stacked dsWeekScenario).map (fun row => (row.Positive, row.Negative, row.Neutral)) :=
  (C10_pipelines_agree dsWeekScenario).1
